import Mathlib

/-!
Verification of the terminal-bridge core of the Planwerk editor.

The embedding follows `src/server.ts` (PTY session manager + WebSocket
connection router) and the client terminal panel (`src/unnamed/part_003`).

Modelling decisions, all traceable to the source:
* Bytes are `Nat`; a wire message is a `List Nat`.
* `JSON.parse` of a control payload is an abstract parameter
  `parse : List Nat → Option InCtrl`; `none` models a parse failure
  (the `catch` branch of `ws.on("message")`).  An `InCtrl` carries the
  `type` string and the `cols`/`rows` numbers, with `0` standing for a
  JavaScript-falsy value (absent field or literal `0`), which is exactly
  what the guard `msg.cols && msg.rows` tests.
* `pty.spawn` is abstracted by a parameter `spawnRes : Option Nat`:
  `some pid` is a successful spawn, `none` is the thrown error caught by
  the `catch` branch of `spawnSession`.
* `sendControl`/`sendData` check `ws.readyState === OPEN`; the model keeps
  the list of open connections in the state and a send to a non-open
  connection produces no frame.
* `livePtys` counts spawned processes whose `onExit` callback has not yet
  fired.  `killSession` sends a kill signal but does not wait
  (`currentPty.kill()` then `currentPty = null`), so the killed process
  still fires `onExit` later; the `Event.ptyExit` step is that callback
  (`currentPty = null; if (activeWs) sendControl(activeWs, {type:"exit"})`).
-/

/-- A live PTY session: process id, terminal dimensions, and the list of
byte chunks written to its input stream (`currentPty.write`). -/
structure Pty where
  pid : Nat
  cols : Nat
  rows : Nat
  input : List (List Nat)
deriving Repr, DecidableEq

/-- Control frames the server sends (the JSON objects of `sendControl`). -/
inductive CtrlOut where
  | sessionActive
  | sessionInactive
  | exit
  | fileChanged (file : String)
deriving Repr, DecidableEq

/-- A frame on the wire, at the semantic level: DATA bytes or a CONTROL
message. -/
inductive Frame where
  | data (bytes : List Nat)
  | ctrl (m : CtrlOut)
deriving Repr, DecidableEq

/-- A sent frame: destination connection id and the frame. -/
abbrev Sent := Nat × Frame

/-- Server state: the module-level mutable variables of `server.ts`
(`currentPty`, `activeWs`), plus the set of open connections (readState
of each WebSocket) and the count of spawned-but-not-yet-exited PTY
processes (whose registered `onExit` callbacks are still pending). -/
structure ServerState where
  currentPty : Option Pty
  activeWs : Option Nat
  openConns : List Nat
  livePtys : Nat
deriving Repr, DecidableEq

/-- The server state at startup. -/
def initState : ServerState :=
  { currentPty := none, activeWs := none, openConns := [], livePtys := 0 }

/-- `sendControl(ws, obj)`: emits the frame only when the connection is
open (`ws.readyState === WebSocket.OPEN`). -/
def sendControl (st : ServerState) (c : Nat) (m : CtrlOut) : List Sent :=
  if c ∈ st.openConns then [(c, Frame.ctrl m)] else []

/-- `sendData(ws, data)`: emits the frame only when the connection is open. -/
def sendData (st : ServerState) (c : Nat) (bytes : List Nat) : List Sent :=
  if c ∈ st.openConns then [(c, Frame.data bytes)] else []

/-- `spawnSession()` from `server.ts`.  If a PTY is already running it
returns immediately.  Otherwise the spawn either fails (`spawnRes = none`:
the `catch` branch sends `exit` to the active connection and leaves no
session) or succeeds with the fixed initial dimensions 80×24. -/
def spawnSession (spawnRes : Option Nat) (st : ServerState) :
    ServerState × List Sent :=
  match st.currentPty with
  | some _ => (st, [])
  | none =>
    match spawnRes with
    | none =>
      (st,
       match st.activeWs with
       | some a => sendControl st a CtrlOut.exit
       | none => [])
    | some pid =>
      ({ st with
          currentPty := some { pid := pid, cols := 80, rows := 24, input := [] },
          livePtys := st.livePtys + 1 }, [])

/-- `killSession()` from `server.ts`: kill signal (fire-and-forget, the
process remains in `livePtys` until its `onExit` fires) and the session
reference is cleared immediately. -/
def killSession (st : ServerState) : ServerState :=
  match st.currentPty with
  | none => st
  | some _ => { st with currentPty := none }

/-- A parsed inbound control message (`JSON.parse` result).  `cols = 0`
(resp. `rows = 0`) stands for a JavaScript-falsy field: absent or zero. -/
structure InCtrl where
  type : String
  cols : Nat
  rows : Nat
deriving Repr, DecidableEq

/-- An inbound WebSocket message after the discriminant-byte split of
`ws.on("message")`: zero-length, DATA body, CONTROL body with its parse
result, or an unrecognized kind byte (which falls through every branch). -/
inductive InFrame where
  | empty
  | data (bytes : List Nat)
  | control (parsed : Option InCtrl)
  | unknownKind
deriving Repr, DecidableEq

/-- The body of `ws.on("message", ...)` in `server.ts`, after the
discriminant split.  `spawnRes` is what `pty.spawn` would produce if the
message triggers a spawn. -/
def handleFrame (spawnRes : Option Nat) (st : ServerState) (c : Nat)
    (f : InFrame) : ServerState × List Sent :=
  match f with
  | InFrame.empty => (st, [])
  | InFrame.data bytes =>
    match st.currentPty with
    | some p =>
      ({ st with currentPty := some { p with input := p.input ++ [bytes] } }, [])
    | none => (st, [])
  | InFrame.unknownKind => (st, [])
  | InFrame.control none => (st, [])
  | InFrame.control (some msg) =>
    if msg.type = "start" then
      let r := spawnSession spawnRes st
      (r.1, r.2 ++ sendControl r.1 c
        (if r.1.currentPty.isSome then CtrlOut.sessionActive else CtrlOut.exit))
    else if msg.type = "close" then
      let st1 := killSession st
      (st1, sendControl st1 c CtrlOut.sessionInactive)
    else if msg.type = "resize" ∧ msg.cols ≠ 0 ∧ msg.rows ≠ 0 then
      match st.currentPty with
      | some p =>
        ({ st with currentPty := some { p with cols := msg.cols, rows := msg.rows } }, [])
      | none => (st, [])
    else (st, [])

/-- Protocol discriminant byte for DATA frames. -/
def DATA_BYTE : Nat := 0

/-- Protocol discriminant byte for CONTROL frames. -/
def CONTROL_BYTE : Nat := 1

/-- The discriminant split performed by both receivers
(`ws.on("message")` server-side, `ws.onmessage` client-side):
`buf[0]` is the kind, `buf.subarray(1)` the body; a CONTROL body goes
through `JSON.parse` (abstracted by `parse`). -/
def decodeFrame (parse : List Nat → Option InCtrl) (raw : List Nat) : InFrame :=
  match raw with
  | [] => InFrame.empty
  | k :: body =>
    if k = DATA_BYTE then InFrame.data body
    else if k = CONTROL_BYTE then InFrame.control (parse body)
    else InFrame.unknownKind

/-- The full `ws.on("message")` handler on raw bytes. -/
def handleRawMessage (parse : List Nat → Option InCtrl) (spawnRes : Option Nat)
    (st : ServerState) (c : Nat) (raw : List Nat) : ServerState × List Sent :=
  handleFrame spawnRes st c (decodeFrame parse raw)

/-- `wss.on("connection")`: the new socket unconditionally replaces the
active one, and the server immediately reports the session state. -/
def handleConnect (st : ServerState) (c : Nat) : ServerState × List Sent :=
  let st1 := { st with activeWs := some c, openConns := c :: st.openConns }
  (st1, sendControl st1 c
    (if st1.currentPty.isSome then CtrlOut.sessionActive else CtrlOut.sessionInactive))

/-- `ws.on("close")`: clear the pointer only if this socket is still the
active one; the PTY stays alive. -/
def handleDisconnect (st : ServerState) (c : Nat) : ServerState × List Sent :=
  ({ st with
      openConns := st.openConns.erase c,
      activeWs := if st.activeWs = some c then none else st.activeWs }, [])

/-- The `onExit` callback registered in `spawnSession`: fires once for each
spawned process when it exits (naturally or after a kill); it clears
`currentPty` and sends an `exit` control frame to the active connection. -/
def handlePtyExit (st : ServerState) : ServerState × List Sent :=
  if st.livePtys = 0 then (st, [])
  else
    let st1 := { st with currentPty := none, livePtys := st.livePtys - 1 }
    (st1,
     match st1.activeWs with
     | some a => sendControl st1 a CtrlOut.exit
     | none => [])

/-- The `onData` callback registered in `spawnSession`: forwards the chunk
to the active connection as a DATA frame. -/
def handlePtyData (st : ServerState) (bytes : List Nat) : ServerState × List Sent :=
  (st,
   match st.activeWs with
   | some a => sendData st a bytes
   | none => [])

/-- External events driving the server's event loop.  A `message` event
carries the discriminant-split frame and the outcome `pty.spawn` would
have at that moment. -/
inductive Event where
  | connect (c : Nat)
  | disconnect (c : Nat)
  | message (c : Nat) (f : InFrame) (spawnRes : Option Nat)
  | ptyData (bytes : List Nat)
  | ptyExit
deriving Repr, DecidableEq

/-- One event-loop dispatch. -/
def step (st : ServerState) (e : Event) : ServerState × List Sent :=
  match e with
  | Event.connect c => handleConnect st c
  | Event.disconnect c => handleDisconnect st c
  | Event.message c f r => handleFrame r st c f
  | Event.ptyData b => handlePtyData st b
  | Event.ptyExit => handlePtyExit st

/-- Run a sequence of events, collecting all sent frames in order. -/
def run (st : ServerState) (es : List Event) : ServerState × List Sent :=
  match es with
  | [] => (st, [])
  | e :: rest =>
    let r1 := step st e
    let r2 := run r1.1 rest
    (r2.1, r1.2 ++ r2.2)

/-- Binary framing, encode side (`sendControl`/`sendData` on the server,
the keystroke sender and `sendControl` on the client): the kind byte
followed by the payload bytes. -/
def encode (kind : Nat) (payload : List Nat) : List Nat :=
  kind :: payload

/-- Binary framing, decode side (both receivers): fails on empty input,
otherwise the first byte is the kind and the rest is the payload. -/
def decode (bytes : List Nat) : Option (Nat × List Nat) :=
  match bytes with
  | [] => none
  | k :: rest => some (k, rest)

/-!
Client model: the `TerminalPanel` component.  The refs
(`termRef`, `fitAddonRef`, `resizeObserverRef`) hold instance ids;
`nextId` supplies fresh ids for lazily constructed instances.
-/

/-- Client-side mutable state: the `sessionActive` React state and the
emulator / fit-addon / resize-observer refs. -/
structure ClientState where
  sessionActive : Bool
  term : Option Nat
  fitAddon : Option Nat
  observer : Option Nat
  nextId : Nat
deriving Repr, DecidableEq

/-- Control frames the client sends to the server. -/
inductive ClientOut where
  | start
  | close
  | resize (cols rows : Nat)
deriving Repr, DecidableEq

/-- Observable client effects: frames sent on the socket, terminal writes,
instance disposal, observer disconnection, and the DOM event dispatched
for `file-changed`. -/
inductive ClientEff where
  | sent (m : ClientOut)
  | wroteTerm (bytes : List Nat)
  | disposedTerm (id : Nat)
  | disconnectedObserver (id : Nat)
  | dispatchedFileChanged (file : String)
deriving Repr, DecidableEq

/-- `ensureTerminal()`: lazy, once.  Returns early when an instance already
exists or the DOM container is not mounted; otherwise constructs the
emulator, the fit addon, and the resize observer. -/
def ensureTerminal (containerReady : Bool) (cs : ClientState) : ClientState :=
  match cs.term with
  | some _ => cs
  | none =>
    if containerReady then
      { cs with
          term := some cs.nextId,
          fitAddon := some (cs.nextId + 1),
          observer := some (cs.nextId + 2),
          nextId := cs.nextId + 3 }
    else cs

/-- The CONTROL branch of the client's `ws.onmessage`: `session-active`
marks active and lazily builds the terminal; `session-inactive` and
`exit` only mark inactive; `file-changed` dispatches a DOM event. -/
def handleClientCtrl (containerReady : Bool) (m : CtrlOut) (cs : ClientState) :
    ClientState × List ClientEff :=
  match m with
  | CtrlOut.sessionActive =>
    (ensureTerminal containerReady { cs with sessionActive := true }, [])
  | CtrlOut.sessionInactive => ({ cs with sessionActive := false }, [])
  | CtrlOut.exit => ({ cs with sessionActive := false }, [])
  | CtrlOut.fileChanged f => (cs, [ClientEff.dispatchedFileChanged f])

/-- `handleStop`: returns early unless the socket is open; otherwise sends
a `close` control frame and then immediately disposes the resize observer
and the terminal emulator (optimistic local cleanup). -/
def handleStop (wsOpen : Bool) (cs : ClientState) : ClientState × List ClientEff :=
  if wsOpen then
    let obsEff :=
      match cs.observer with
      | some o => [ClientEff.disconnectedObserver o]
      | none => []
    let termEff :=
      match cs.term with
      | some t => [ClientEff.disposedTerm t]
      | none => []
    ({ cs with observer := none, term := none, fitAddon := none },
     ClientEff.sent ClientOut.close :: (obsEff ++ termEff))
  else (cs, [])

/-- A sequence of bare `spawnSession` calls (the Session Manager's
`start()`), collecting states and frames. -/
def runStarts (l : List (Option Nat)) (st : ServerState) :
    ServerState × List Sent :=
  match l with
  | [] => (st, [])
  | r :: rest =>
    let r1 := spawnSession r st
    let r2 := runStarts rest r1.1
    (r2.1, r1.2 ++ r2.2)

/-- A client connects, starts a session (spawn succeeds with pid 42),
requests `close`, and then the killed process's `onExit` callback fires. -/
def c1CloseTrace : List Event :=
  [Event.connect 0,
   Event.message 0 (InFrame.control (some { type := "start", cols := 0, rows := 0 })) (some 42),
   Event.message 0 (InFrame.control (some { type := "close", cols := 0, rows := 0 })) none,
   Event.ptyExit]

/-- C2: encoding prepends exactly the kind byte (0x00 for DATA, 0x01 for
CONTROL) to the payload, decoding a non-empty message returns the first
byte as the kind and the rest as the payload, so
`decode (encode k p) = (k, p)`, and decode fails exactly on empty input. -/
theorem encode_decode_roundtrip :
    (∀ p : List Nat, decode (encode DATA_BYTE p) = some (DATA_BYTE, p)) ∧
    (∀ p : List Nat, decode (encode CONTROL_BYTE p) = some (CONTROL_BYTE, p)) ∧
    (∀ (k : Nat) (p : List Nat), decode (k :: p) = some (k, p)) ∧
    (∀ b : List Nat, decode b = none ↔ b = []) := by
  refine ⟨fun p => rfl, fun p => rfl, fun k p => rfl, fun b => ?_⟩
  cases b <;> simp [decode]

/-- C3: while a session is RUNNING, any sequence of `start()` calls
(whatever each spawn attempt would have produced) leaves the server state
— in particular the session's pid and dimensions — unchanged and sends no
frame: each call is a no-op. -/
theorem start_idempotent_while_running (st : ServerState) (p : Pty)
    (l : List (Option Nat)) (h : st.currentPty = some p) :
    runStarts l st = (st, []) := by
  induction l with
  | nil => rfl
  | cons r rest ih => simp [runStarts, spawnSession, h, ih]

/-- Witness for C3 at a concrete running state and three start attempts. -/
theorem start_idempotent_while_running_witness :
    runStarts [some 7, none, some 9]
      { currentPty := some { pid := 42, cols := 80, rows := 24, input := [] },
        activeWs := some 0, openConns := [0], livePtys := 1 } =
    ({ currentPty := some { pid := 42, cols := 80, rows := 24, input := [] },
       activeWs := some 0, openConns := [0], livePtys := 1 }, []) :=
  start_idempotent_while_running _
    { pid := 42, cols := 80, rows := 24, input := [] } [some 7, none, some 9] rfl

/-- C4: the connection handler sends to the new connection exactly one
frame, the state report, and it is `session-active` precisely when a
session currently exists, else `session-inactive`. -/
theorem connection_initial_state_report (st : ServerState) (c : Nat) :
    (handleConnect st c).2 =
      [(c, Frame.ctrl (if st.currentPty.isSome then CtrlOut.sessionActive
                       else CtrlOut.sessionInactive))] := by
  simp [handleConnect, sendControl]

/-- C10: a `start` request while no session exists whose spawn fails makes
the active requesting connection receive exactly two `exit` frames — one
from the spawn-failure catch branch, one as the router's reply — and the
state (in particular the absent session) is unchanged. -/
theorem spawn_failure_double_exit (st : ServerState) (c : Nat)
    (habsent : st.currentPty = none) (hactive : st.activeWs = some c)
    (hopen : c ∈ st.openConns) :
    handleFrame none st c
        (InFrame.control (some { type := "start", cols := 0, rows := 0 })) =
      (st, [(c, Frame.ctrl CtrlOut.exit), (c, Frame.ctrl CtrlOut.exit)]) := by
  simp [handleFrame, spawnSession, sendControl, habsent, hactive, hopen]

/-- Witness for C10 at a concrete absent-session state. -/
theorem spawn_failure_double_exit_witness :
    handleFrame none
        { currentPty := none, activeWs := some 0, openConns := [0], livePtys := 0 } 0
        (InFrame.control (some { type := "start", cols := 0, rows := 0 })) =
      ({ currentPty := none, activeWs := some 0, openConns := [0], livePtys := 0 },
       [(0, Frame.ctrl CtrlOut.exit), (0, Frame.ctrl CtrlOut.exit)]) :=
  spawn_failure_double_exit _ 0 rfl rfl (by decide)

/-- Counterexample to C1 as stated: in the concrete run where connection 0
starts a session, requests `close` (answered with `session-inactive`), and
the killed process's `onExit` callback then fires, the final frame the
server sends is an `exit` control frame to connection 0 — the client that
requested the close does subsequently receive an `exit` frame, because the
exit callback is not suppressed. -/
theorem close_requester_receives_exit_counterexample :
    (run initState c1CloseTrace).2 =
      [(0, Frame.ctrl CtrlOut.sessionInactive),
       (0, Frame.ctrl CtrlOut.sessionActive),
       (0, Frame.ctrl CtrlOut.sessionInactive),
       (0, Frame.ctrl CtrlOut.exit)] := by decide

/-- C1 amended: handling `close` while a session is RUNNING clears the
session immediately and replies with exactly one `session-inactive` frame
(not `exit`); but the process's asynchronous exit callback is NOT
suppressed — when it later fires, the then-active open connection receives
an `exit` control frame. -/
theorem close_reply_and_unsuppressed_exit (st st2 : ServerState) (c a : Nat)
    (p : Pty) (r : Option Nat)
    (h : st.currentPty = some p) (hopen : c ∈ st.openConns)
    (h2 : st2.livePtys ≠ 0) (ha : st2.activeWs = some a)
    (haopen : a ∈ st2.openConns) :
    handleFrame r st c
        (InFrame.control (some { type := "close", cols := 0, rows := 0 })) =
      ({ st with currentPty := none }, [(c, Frame.ctrl CtrlOut.sessionInactive)]) ∧
    (handlePtyExit st2).2 = [(a, Frame.ctrl CtrlOut.exit)] := by
  constructor
  · simp [handleFrame, killSession, sendControl, h, hopen]
  · simp [handlePtyExit, sendControl, h2, ha, haopen]

/-- Witness for the amended C1 at concrete states. -/
theorem close_reply_and_unsuppressed_exit_witness :
    handleFrame none
        { currentPty := some { pid := 42, cols := 80, rows := 24, input := [] },
          activeWs := some 0, openConns := [0], livePtys := 1 } 0
        (InFrame.control (some { type := "close", cols := 0, rows := 0 })) =
      ({ currentPty := none, activeWs := some 0, openConns := [0], livePtys := 1 },
       [(0, Frame.ctrl CtrlOut.sessionInactive)]) ∧
    (handlePtyExit
        { currentPty := none, activeWs := some 0, openConns := [0], livePtys := 1 }).2 =
      [(0, Frame.ctrl CtrlOut.exit)] :=
  close_reply_and_unsuppressed_exit _ _ 0 0
    { pid := 42, cols := 80, rows := 24, input := [] } none
    rfl (by decide) (by decide) rfl (by decide)

/-- C5: when a connection closes, no frame is emitted and the session is
untouched; the active pointer is cleared exactly when the closing
connection is still the designated one; and a subsequent connection (with
the session still running) receives `session-active` as its initial state
report. -/
theorem disconnect_preserves_session (st : ServerState) (c d : Nat) (p : Pty)
    (h : st.currentPty = some p) :
    (handleDisconnect st c).2 = [] ∧
    (handleDisconnect st c).1.currentPty = st.currentPty ∧
    (handleDisconnect st c).1.activeWs =
      (if st.activeWs = some c then none else st.activeWs) ∧
    (handleConnect (handleDisconnect st c).1 d).2 =
      [(d, Frame.ctrl CtrlOut.sessionActive)] := by
  refine ⟨rfl, rfl, rfl, ?_⟩
  simp [handleConnect, handleDisconnect, sendControl, h]

/-- Witness for C5: connection 0 closes while it is active and the session
runs; connection 1 then connects and is greeted with `session-active`. -/
theorem disconnect_preserves_session_witness :
    (handleDisconnect
        { currentPty := some { pid := 42, cols := 80, rows := 24, input := [] },
          activeWs := some 0, openConns := [0], livePtys := 1 } 0).2 = [] ∧
    (handleDisconnect
        { currentPty := some { pid := 42, cols := 80, rows := 24, input := [] },
          activeWs := some 0, openConns := [0], livePtys := 1 } 0).1.currentPty =
      some { pid := 42, cols := 80, rows := 24, input := [] } ∧
    (handleDisconnect
        { currentPty := some { pid := 42, cols := 80, rows := 24, input := [] },
          activeWs := some 0, openConns := [0], livePtys := 1 } 0).1.activeWs =
      (if (some 0 : Option Nat) = some 0 then none else some 0) ∧
    (handleConnect
        (handleDisconnect
          { currentPty := some { pid := 42, cols := 80, rows := 24, input := [] },
            activeWs := some 0, openConns := [0], livePtys := 1 } 0).1 1).2 =
      [(1, Frame.ctrl CtrlOut.sessionActive)] :=
  disconnect_preserves_session _ 0 1
    { pid := 42, cols := 80, rows := 24, input := [] } rfl

/-- C6: with no session, an inbound DATA frame and an inbound resize
control frame are silent no-ops (state unchanged, no frame sent); with a
session, a DATA frame appends exactly its payload bytes to the process's
input stream. -/
theorem write_resize_absent_noop (r : Option Nat) (st : ServerState) (c : Nat)
    (bytes : List Nat) (cols rows : Nat) (h : st.currentPty = none) :
    handleFrame r st c (InFrame.data bytes) = (st, []) ∧
    handleFrame r st c
        (InFrame.control (some { type := "resize", cols := cols, rows := rows })) =
      (st, []) ∧
    ∀ (st2 : ServerState) (p : Pty), st2.currentPty = some p →
      handleFrame r st2 c (InFrame.data bytes) =
        ({ st2 with currentPty := some { p with input := p.input ++ [bytes] } }, []) := by
  refine ⟨by simp [handleFrame, h], ?_, ?_⟩
  · simp only [handleFrame]
    rw [if_neg (by decide : ¬("resize" : String) = "start"),
        if_neg (by decide : ¬("resize" : String) = "close")]
    split
    · simp [h]
    · rfl
  · intro st2 p hp
    simp [handleFrame, hp]

/-- Witness for C6: byte 108 ("l") dropped with no session, forwarded with
one. -/
theorem write_resize_absent_noop_witness :
    handleFrame none initState 0 (InFrame.data [108]) = (initState, []) ∧
    handleFrame none initState 0
        (InFrame.control (some { type := "resize", cols := 120, rows := 40 })) =
      (initState, []) ∧
    handleFrame none
        { currentPty := some { pid := 42, cols := 80, rows := 24, input := [] },
          activeWs := some 0, openConns := [0], livePtys := 1 } 0
        (InFrame.data [108]) =
      ({ currentPty := some { pid := 42, cols := 80, rows := 24, input := [[108]] },
         activeWs := some 0, openConns := [0], livePtys := 1 }, []) :=
  ⟨(write_resize_absent_noop none initState 0 [108] 120 40 rfl).1,
   (write_resize_absent_noop none initState 0 [108] 120 40 rfl).2.1,
   (write_resize_absent_noop none initState 0 [108] 120 40 rfl).2.2
     { currentPty := some { pid := 42, cols := 80, rows := 24, input := [] },
       activeWs := some 0, openConns := [0], livePtys := 1 }
     { pid := 42, cols := 80, rows := 24, input := [] } rfl⟩

/-- C7: a resize control frame while a session is RUNNING sets the PTY
dimensions to exactly the given cols×rows when both are truthy (non-zero),
and is ignored — dimensions unchanged, no frame sent — when either is
falsy. -/
theorem resize_sets_dimensions (r : Option Nat) (st : ServerState) (c : Nat)
    (p : Pty) (cols rows : Nat) (h : st.currentPty = some p) :
    (cols ≠ 0 → rows ≠ 0 →
      handleFrame r st c
          (InFrame.control (some { type := "resize", cols := cols, rows := rows })) =
        ({ st with currentPty := some { p with cols := cols, rows := rows } }, [])) ∧
    (cols = 0 ∨ rows = 0 →
      handleFrame r st c
          (InFrame.control (some { type := "resize", cols := cols, rows := rows })) =
        (st, [])) := by
  constructor
  · intro hc hr
    simp [handleFrame, h, hc, hr]
  · intro hcr
    simp only [handleFrame]
    rw [if_neg (by decide : ¬("resize" : String) = "start"),
        if_neg (by decide : ¬("resize" : String) = "close")]
    split
    · rcases hcr with h0 | h0 <;> simp_all
    · rfl

/-- Witness for C7: 120×40 is applied, 0×40 is ignored. -/
theorem resize_sets_dimensions_witness :
    handleFrame none
        { currentPty := some { pid := 42, cols := 80, rows := 24, input := [] },
          activeWs := some 0, openConns := [0], livePtys := 1 } 0
        (InFrame.control (some { type := "resize", cols := 120, rows := 40 })) =
      ({ currentPty := some { pid := 42, cols := 120, rows := 40, input := [] },
         activeWs := some 0, openConns := [0], livePtys := 1 }, []) ∧
    handleFrame none
        { currentPty := some { pid := 42, cols := 80, rows := 24, input := [] },
          activeWs := some 0, openConns := [0], livePtys := 1 } 0
        (InFrame.control (some { type := "resize", cols := 0, rows := 40 })) =
      ({ currentPty := some { pid := 42, cols := 80, rows := 24, input := [] },
         activeWs := some 0, openConns := [0], livePtys := 1 }, []) :=
  ⟨(resize_sets_dimensions none _ 0
      { pid := 42, cols := 80, rows := 24, input := [] } 120 40 rfl).1
      (by decide) (by decide),
   (resize_sets_dimensions none _ 0
      { pid := 42, cols := 80, rows := 24, input := [] } 0 40 rfl).2
      (Or.inl rfl)⟩

/-- C8: the inbound-message handler is a total function (the embedding of
a handler whose only fallible step, `JSON.parse`, is wrapped in
try/catch): a zero-length message is ignored, a CONTROL frame whose
payload fails to parse is silently dropped, and a CONTROL frame with an
unrecognized `type` is silently dropped — in each case the state
(session, connections) is unchanged and no frame is sent. -/
theorem message_handler_drops_malformed (parse : List Nat → Option InCtrl)
    (r : Option Nat) (st : ServerState) (c : Nat) (body : List Nat) :
    handleRawMessage parse r st c [] = (st, []) ∧
    (parse body = none →
      handleRawMessage parse r st c (CONTROL_BYTE :: body) = (st, [])) ∧
    (∀ m, parse body = some m → m.type ≠ "start" → m.type ≠ "close" →
      m.type ≠ "resize" →
      handleRawMessage parse r st c (CONTROL_BYTE :: body) = (st, [])) := by
  refine ⟨rfl, ?_, ?_⟩
  · intro hp
    simp [handleRawMessage, decodeFrame, handleFrame, hp, CONTROL_BYTE, DATA_BYTE]
  · intro m hp h1 h2 h3
    simp [handleRawMessage, decodeFrame, handleFrame, hp, h1, h2, h3,
      CONTROL_BYTE, DATA_BYTE]

/-- Witness for C8: the empty message, a CONTROL payload that fails to
parse, and a parsed CONTROL message of unrecognized type `"frobnicate"`
are all dropped without any state change or reply. -/
theorem message_handler_drops_malformed_witness :
    handleRawMessage (fun _ => none) none initState 0 [] = (initState, []) ∧
    handleRawMessage (fun _ => none) none initState 0
        (CONTROL_BYTE :: [110, 111]) = (initState, []) ∧
    handleRawMessage (fun _ => some { type := "frobnicate", cols := 0, rows := 0 })
        none initState 0 (CONTROL_BYTE :: [110, 111]) = (initState, []) :=
  ⟨(message_handler_drops_malformed (fun _ => none) none initState 0 [110, 111]).1,
   (message_handler_drops_malformed (fun _ => none) none initState 0 [110, 111]).2.1
     rfl,
   (message_handler_drops_malformed
      (fun _ => some { type := "frobnicate", cols := 0, rows := 0 })
      none initState 0 [110, 111]).2.2
     { type := "frobnicate", cols := 0, rows := 0 } rfl
     (by decide) (by decide) (by decide)⟩

/-- C9: on the client, `session-inactive` and `exit` only flip the
session-active flag — the terminal emulator and its resize observer
survive every inbound control frame and no dispose/disconnect effect is
emitted by the message handler; the explicit stop action (with the socket
open) sends a `close` frame and then immediately disconnects the observer
and disposes the emulator. -/
theorem inactive_keeps_terminal (cr : Bool) (cs : ClientState) (t o : Nat)
    (ht : cs.term = some t) (ho : cs.observer = some o) :
    handleClientCtrl cr CtrlOut.sessionInactive cs =
      ({ cs with sessionActive := false }, []) ∧
    handleClientCtrl cr CtrlOut.exit cs =
      ({ cs with sessionActive := false }, []) ∧
    (∀ m, (handleClientCtrl cr m cs).1.term = some t ∧
      (handleClientCtrl cr m cs).1.observer = some o ∧
      ∀ e ∈ (handleClientCtrl cr m cs).2,
        e ≠ ClientEff.disposedTerm t ∧ e ≠ ClientEff.disconnectedObserver o) ∧
    handleStop true cs =
      ({ cs with term := none, observer := none, fitAddon := none },
       [ClientEff.sent ClientOut.close, ClientEff.disconnectedObserver o,
        ClientEff.disposedTerm t]) := by
  refine ⟨rfl, rfl, ?_, ?_⟩
  · intro m
    cases m <;> simp [handleClientCtrl, ensureTerminal, ht, ho]
  · simp [handleStop, ht, ho]

/-- Witness for C9 at a concrete client state with a live emulator. -/
theorem inactive_keeps_terminal_witness :
    handleClientCtrl true CtrlOut.sessionInactive
        { sessionActive := true, term := some 0, fitAddon := some 1,
          observer := some 2, nextId := 3 } =
      ({ sessionActive := false, term := some 0, fitAddon := some 1,
         observer := some 2, nextId := 3 }, []) ∧
    handleStop true
        { sessionActive := true, term := some 0, fitAddon := some 1,
          observer := some 2, nextId := 3 } =
      ({ sessionActive := true, term := none, fitAddon := none,
         observer := none, nextId := 3 },
       [ClientEff.sent ClientOut.close, ClientEff.disconnectedObserver 2,
        ClientEff.disposedTerm 0]) :=
  ⟨(inactive_keeps_terminal true
      { sessionActive := true, term := some 0, fitAddon := some 1,
        observer := some 2, nextId := 3 } 0 2 rfl rfl).1,
   (inactive_keeps_terminal true
      { sessionActive := true, term := some 0, fitAddon := some 1,
        observer := some 2, nextId := 3 } 0 2 rfl rfl).2.2.2⟩
